import Mathlib

/-!
Verification development for `franka_hw/src/franka_state_controller.cpp`.

The controller is shallowly embedded as a pure state machine:

* `Errors` mirrors the named boolean fault-flag set shared by the producer
  type `franka::Errors` and the published message type `franka_hw::Errors`
  (the field names coincide in the C++ sources).
* `errorsToMessage` is a field-for-field transcription of the anonymous
  namespace function of the same name, including its self-assignment of
  `joint_motion_generator_velocity_limits_violation` (the C++ message is
  default-constructed, so that field keeps its default `false`).
* `convertArrayToTf` transcribes the anonymous namespace conversion of a
  16-scalar column-major homogeneous matrix into a rotation matrix
  (`tf::Matrix3x3` is row-major, so row `r` reads offsets `r, r+4, r+8`)
  and a translation vector (offsets 12, 13, 14).
* `RobotState` carries exactly the snapshot fields the controller copies;
  real scalars are modelled as `Int` since the controller only moves them.
* `update` embeds `FrankaStateController::update`: the trigger decision,
  the trylock outcome of each channel and the producer snapshot are inputs
  of the tick (they come from collaborators outside this translation
  unit), and the outputs record which messages were handed to the
  transport by `unlockAndPublish`.
* `init` embeds the success/failure control flow of
  `FrankaStateController::init` over an environment describing which
  parameters and handles are available.
-/

/-- The named fault-flag set of `franka::Errors` / `franka_hw::Errors`. -/
structure Errors where
  cartesian_motion_generator_acceleration_discontinuity : Bool
  cartesian_motion_generator_elbow_limit_violation : Bool
  cartesian_motion_generator_elbow_sign_inconsistent : Bool
  cartesian_motion_generator_start_elbow_invalid : Bool
  cartesian_motion_generator_velocity_discontinuity : Bool
  cartesian_motion_generator_velocity_limits_violation : Bool
  cartesian_position_limits_violation : Bool
  cartesian_position_motion_generator_start_pose_invalid : Bool
  cartesian_reflex : Bool
  cartesian_velocity_profile_safety_violation : Bool
  cartesian_velocity_violation : Bool
  force_controller_desired_force_tolerance_violation : Bool
  force_control_safety_violation : Bool
  joint_motion_generator_acceleration_discontinuity : Bool
  joint_motion_generator_position_limits_violation : Bool
  joint_motion_generator_velocity_discontinuity : Bool
  joint_motion_generator_velocity_limits_violation : Bool
  joint_position_limits_violation : Bool
  joint_position_motion_generator_start_pose_invalid : Bool
  joint_reflex : Bool
  joint_velocity_violation : Bool
  max_goal_pose_deviation_violation : Bool
  max_path_pose_deviation_violation : Bool
  self_collision_avoidance_violation : Bool
  deriving DecidableEq

/-- The default-constructed `franka_hw::Errors` message: every flag false. -/
def Errors.mkFalse : Errors :=
  ⟨false, false, false, false, false, false, false, false, false, false, false, false,
   false, false, false, false, false, false, false, false, false, false, false, false⟩

/-- Transcription of `errorsToMessage` (franka_state_controller.cpp lines 26-67).
The C++ body default-constructs `message` (every flag false) and assigns each
message field exactly once, in sequence, from the matching source field — except
lines 56-57, which assign `message.joint_motion_generator_velocity_limits_violation`
from itself; no earlier line writes that field, so it keeps the default-constructed
value, transcribed here as the corresponding field of `Errors.mkFalse`. -/
def errorsToMessage (error : Errors) : Errors :=
  { cartesian_motion_generator_acceleration_discontinuity :=
      error.cartesian_motion_generator_acceleration_discontinuity
    cartesian_motion_generator_elbow_limit_violation :=
      error.cartesian_motion_generator_elbow_limit_violation
    cartesian_motion_generator_elbow_sign_inconsistent :=
      error.cartesian_motion_generator_elbow_sign_inconsistent
    cartesian_motion_generator_start_elbow_invalid :=
      error.cartesian_motion_generator_start_elbow_invalid
    cartesian_motion_generator_velocity_discontinuity :=
      error.cartesian_motion_generator_velocity_discontinuity
    cartesian_motion_generator_velocity_limits_violation :=
      error.cartesian_motion_generator_velocity_limits_violation
    cartesian_position_limits_violation := error.cartesian_position_limits_violation
    cartesian_position_motion_generator_start_pose_invalid :=
      error.cartesian_position_motion_generator_start_pose_invalid
    cartesian_reflex := error.cartesian_reflex
    cartesian_velocity_profile_safety_violation :=
      error.cartesian_velocity_profile_safety_violation
    cartesian_velocity_violation := error.cartesian_velocity_violation
    force_controller_desired_force_tolerance_violation :=
      error.force_controller_desired_force_tolerance_violation
    force_control_safety_violation := error.force_control_safety_violation
    joint_motion_generator_acceleration_discontinuity :=
      error.joint_motion_generator_acceleration_discontinuity
    joint_motion_generator_position_limits_violation :=
      error.joint_motion_generator_position_limits_violation
    joint_motion_generator_velocity_discontinuity :=
      error.joint_motion_generator_velocity_discontinuity
    joint_motion_generator_velocity_limits_violation :=
      Errors.mkFalse.joint_motion_generator_velocity_limits_violation
    joint_position_limits_violation := error.joint_position_limits_violation
    joint_position_motion_generator_start_pose_invalid :=
      error.joint_position_motion_generator_start_pose_invalid
    joint_reflex := error.joint_reflex
    joint_velocity_violation := error.joint_velocity_violation
    max_goal_pose_deviation_violation := error.max_goal_pose_deviation_violation
    max_path_pose_deviation_violation := error.max_path_pose_deviation_violation
    self_collision_avoidance_violation := error.self_collision_avoidance_violation }

/-- Transcription of `convertArrayToTf` (lines 19-24): the rotation matrix rows
are built from offsets (0,4,8), (1,5,9), (2,6,10) of the column-major array and
the translation from offsets (12,13,14). -/
def convertArrayToTf (transform : Fin 16 → Int) : (Fin 3 → Fin 3 → Int) × (Fin 3 → Int) :=
  (![![transform 0, transform 4, transform 8],
     ![transform 1, transform 5, transform 9],
     ![transform 2, transform 6, transform 10]],
   ![transform 12, transform 13, transform 14])

/-- The snapshot fields of `franka::RobotState` that the controller copies
(real scalars modelled as `Int`). -/
structure RobotState where
  cartesian_collision : Fin 6 → Int
  cartesian_contact : Fin 6 → Int
  K_F_ext_hat_K : Fin 6 → Int
  O_F_ext_hat_K : Fin 6 → Int
  q : Fin 7 → Int
  dq : Fin 7 → Int
  tau_J : Fin 7 → Int
  dtau_J : Fin 7 → Int
  joint_collision : Fin 7 → Int
  joint_contact : Fin 7 → Int
  q_d : Fin 7 → Int
  tau_ext_hat_filtered : Fin 7 → Int
  elbow : Fin 2 → Int
  elbow_d : Fin 2 → Int
  O_T_EE : Fin 16 → Int
  F_T_EE : Fin 16 → Int
  EE_T_K : Fin 16 → Int
  O_T_EE_d : Fin 16 → Int
  m_load : Int
  I_load : Fin 9 → Int
  F_x_Cload : Fin 3 → Int
  time : Int
  current_errors : Errors
  last_motion_errors : Errors
  deriving DecidableEq

/-- The aggregate-state message (`franka_hw::FrankaState`): exactly the fields
`publishFrankaStates` writes, plus the header stamp and sequence. -/
structure FrankaStatesMsg where
  cartesian_collision : Fin 6 → Int
  cartesian_contact : Fin 6 → Int
  K_F_ext_hat_K : Fin 6 → Int
  O_F_ext_hat_K : Fin 6 → Int
  q : Fin 7 → Int
  dq : Fin 7 → Int
  tau_J : Fin 7 → Int
  dtau_J : Fin 7 → Int
  joint_collision : Fin 7 → Int
  joint_contact : Fin 7 → Int
  q_d : Fin 7 → Int
  tau_ext_hat_filtered : Fin 7 → Int
  elbow : Fin 2 → Int
  elbow_d : Fin 2 → Int
  O_T_EE : Fin 16 → Int
  F_T_EE : Fin 16 → Int
  EE_T_K : Fin 16 → Int
  O_T_EE_d : Fin 16 → Int
  m_load : Int
  I_load : Fin 9 → Int
  F_x_Cload : Fin 3 → Int
  time : Int
  current_errors : Errors
  last_motion_errors : Errors
  header_seq : Nat
  header_stamp : Int
  deriving DecidableEq

/-- The joint-state message (`sensor_msgs::JointState`) as written by
`publishJointStates`. -/
structure JointStateMsg where
  name : Fin 7 → String
  position : Fin 7 → Int
  velocity : Fin 7 → Int
  effort : Fin 7 → Int
  header_stamp : Int
  header_seq : Nat
  deriving DecidableEq

/-- One stamped transform of the `/tf` message (rotation kept as the matrix and
translation produced by `convertArrayToTf`; quaternion serialization happens in
the external `tf` library). -/
structure StampedTransform where
  rotation : Fin 3 → Fin 3 → Int
  translation : Fin 3 → Int
  stamp : Int
  frame_id : String
  child_frame_id : String
  deriving DecidableEq

/-- The `/tf` message: `publishTransforms` overwrites both entries each publish. -/
structure TFMsg where
  transform0 : StampedTransform
  transform1 : StampedTransform
  deriving DecidableEq

/-- The wrench message (`geometry_msgs::WrenchStamped`) as written by
`publishExternalWrench`. -/
structure WrenchMsg where
  frame_id : String
  stamp : Int
  force_x : Int
  force_y : Int
  force_z : Int
  torque_x : Int
  torque_y : Int
  torque_z : Int
  deriving DecidableEq

/-- The aggregate-state payload built by `publishFrankaStates` (lines 174-222):
every message field is overwritten from the stored snapshot, the error sets go
through `errorsToMessage`, and the header carries the controller sequence number
and the tick time. -/
def frankaStatesMessage (rs : RobotState) (seq : Nat) (time : Int) : FrankaStatesMsg :=
  { cartesian_collision := rs.cartesian_collision
    cartesian_contact := rs.cartesian_contact
    K_F_ext_hat_K := rs.K_F_ext_hat_K
    O_F_ext_hat_K := rs.O_F_ext_hat_K
    q := rs.q
    dq := rs.dq
    tau_J := rs.tau_J
    dtau_J := rs.dtau_J
    joint_collision := rs.joint_collision
    joint_contact := rs.joint_contact
    q_d := rs.q_d
    tau_ext_hat_filtered := rs.tau_ext_hat_filtered
    elbow := rs.elbow
    elbow_d := rs.elbow_d
    O_T_EE := rs.O_T_EE
    F_T_EE := rs.F_T_EE
    EE_T_K := rs.EE_T_K
    O_T_EE_d := rs.O_T_EE_d
    m_load := rs.m_load
    I_load := rs.I_load
    F_x_Cload := rs.F_x_Cload
    time := rs.time
    current_errors := errorsToMessage rs.current_errors
    last_motion_errors := errorsToMessage rs.last_motion_errors
    header_seq := seq
    header_stamp := time }

/-- The joint-state payload built by `publishJointStates` (lines 229-236). -/
def jointStatesMessage (names : Fin 7 → String) (rs : RobotState) (seq : Nat)
    (time : Int) : JointStateMsg :=
  { name := names
    position := rs.q
    velocity := rs.dq
    effort := rs.tau_J
    header_stamp := time
    header_seq := seq }

/-- The `/tf` payload built by `publishTransforms` (lines 243-251): the
flange-to-end-effector and end-effector-to-stiffness transforms of the snapshot. -/
def transformsMessage (arm_id : String) (rs : RobotState) (time : Int) : TFMsg :=
  { transform0 :=
      { rotation := (convertArrayToTf rs.F_T_EE).1
        translation := (convertArrayToTf rs.F_T_EE).2
        stamp := time
        frame_id := arm_id ++ "_link8"
        child_frame_id := arm_id ++ "_EE" }
    transform1 :=
      { rotation := (convertArrayToTf rs.EE_T_K).1
        translation := (convertArrayToTf rs.EE_T_K).2
        stamp := time
        frame_id := arm_id ++ "_EE"
        child_frame_id := arm_id ++ "_K" } }

/-- The wrench payload built by `publishExternalWrench` (lines 258-265). -/
def wrenchMessage (arm_id : String) (rs : RobotState) (time : Int) : WrenchMsg :=
  { frame_id := arm_id ++ "_K"
    stamp := time
    force_x := rs.K_F_ext_hat_K 0
    force_y := rs.K_F_ext_hat_K 1
    force_z := rs.K_F_ext_hat_K 2
    torque_x := rs.K_F_ext_hat_K 3
    torque_y := rs.K_F_ext_hat_K 4
    torque_z := rs.K_F_ext_hat_K 5 }

/-- The mutable controller state: configuration fixed at `init`, the stored
snapshot `robot_state_`, the sequence counter, and one output buffer per
realtime publisher. -/
structure ControllerState where
  arm_id : String
  joint_names : Fin 7 → String
  robot_state : RobotState
  sequence_number : Nat
  pub_franka_states : FrankaStatesMsg
  pub_transforms : TFMsg
  pub_external_wrench : WrenchMsg
  pub_joint_states : JointStateMsg
  deriving DecidableEq

/-- The per-tick inputs from collaborators outside this translation unit: the
`TriggerRate` decision, the producer snapshot `getRobotState()` would return,
and each realtime publisher's `trylock()` outcome (true = buffer free). -/
structure TickInput where
  trigger : Bool
  robot_state : RobotState
  franka_states_free : Bool
  transforms_free : Bool
  wrench_free : Bool
  joint_states_free : Bool
  deriving DecidableEq

/-- The messages handed to the transport by `unlockAndPublish` during one tick
(`none` = that channel's publish was skipped). -/
structure TickOutput where
  published_franka_states : Option FrankaStatesMsg
  published_transforms : Option TFMsg
  published_wrench : Option WrenchMsg
  published_joint_states : Option JointStateMsg
  deriving DecidableEq

/-- The tick output of a non-firing tick: nothing published. -/
def emptyOutput : TickOutput :=
  { published_franka_states := none
    published_transforms := none
    published_wrench := none
    published_joint_states := none }

/-- `publishFrankaStates` (lines 172-225): on a successful `trylock` the buffer
is overwritten with the projection of the stored snapshot and handed to the
transport; on a failed `trylock` nothing happens. -/
def publishFrankaStates (s : ControllerState) (free : Bool) (time : Int) :
    ControllerState × Option FrankaStatesMsg :=
  if free then
    let msg := frankaStatesMessage s.robot_state s.sequence_number time
    ({ s with pub_franka_states := msg }, some msg)
  else
    (s, none)

/-- `publishTransforms` (lines 241-254). -/
def publishTransforms (s : ControllerState) (free : Bool) (time : Int) :
    ControllerState × Option TFMsg :=
  if free then
    let msg := transformsMessage s.arm_id s.robot_state time
    ({ s with pub_transforms := msg }, some msg)
  else
    (s, none)

/-- `publishExternalWrench` (lines 256-268). -/
def publishExternalWrench (s : ControllerState) (free : Bool) (time : Int) :
    ControllerState × Option WrenchMsg :=
  if free then
    let msg := wrenchMessage s.arm_id s.robot_state time
    ({ s with pub_external_wrench := msg }, some msg)
  else
    (s, none)

/-- `publishJointStates` (lines 227-239). -/
def publishJointStates (s : ControllerState) (free : Bool) (time : Int) :
    ControllerState × Option JointStateMsg :=
  if free then
    let msg := jointStatesMessage s.joint_names s.robot_state s.sequence_number time
    ({ s with pub_joint_states := msg }, some msg)
  else
    (s, none)

/-- `FrankaStateController::update` (lines 161-170): when the trigger fires, the
producer is read once into `robot_state_`, the four channels attempt their
publishes in source order, and the sequence counter is incremented afterwards. -/
def update (s : ControllerState) (inp : TickInput) (time : Int) :
    ControllerState × TickOutput :=
  if inp.trigger then
    let s1 := { s with robot_state := inp.robot_state }
    let rF := publishFrankaStates s1 inp.franka_states_free time
    let rT := publishTransforms rF.1 inp.transforms_free time
    let rW := publishExternalWrench rT.1 inp.wrench_free time
    let rJ := publishJointStates rW.1 inp.joint_states_free time
    ({ rJ.1 with sequence_number := rJ.1.sequence_number + 1 },
     { published_franka_states := rF.2
       published_transforms := rT.2
       published_wrench := rW.2
       published_joint_states := rJ.2 })
  else
    (s, emptyOutput)

/-- Iterated ticks: the trajectory of (post-state, output) pairs over a list of
(tick input, tick time) pairs. -/
def runTrace (s : ControllerState) : List (TickInput × Int) → List (ControllerState × TickOutput)
  | [] => []
  | inp :: rest =>
    let r := update s inp.1 inp.2
    r :: runTrace r.1 rest

/-- The initialization environment of `FrankaStateController::init`: whether the
state interface is available, which parameters the parameter server holds, and
whether `getHandle` succeeds. -/
structure InitEnv where
  has_state_interface : Bool
  arm_id_param : Option String
  publish_rate_param : Option Rat
  joint_names_param : Option (List String)
  handle_ok : Bool
  deriving DecidableEq

/-- The configuration a successful `init` leaves behind. -/
structure InitConfig where
  arm_id : String
  publish_rate : Rat
  joint_names : List String
  deriving DecidableEq

/-- The success/failure control flow of `FrankaStateController::init`
(lines 82-159): fail on a missing state interface, a missing `arm_id`, a missing
or non-length-7 `joint_names`, or a failing `getHandle`; a missing
`publish_rate` keeps the default 30.0. -/
def init (env : InitEnv) : Option InitConfig :=
  if env.has_state_interface = false then none else
  match env.arm_id_param with
  | none => none
  | some arm_id =>
    let publish_rate : Rat :=
      match env.publish_rate_param with
      | some rate => rate
      | none => 30
    match env.joint_names_param with
    | none => none
    | some joint_names =>
      if joint_names.length ≠ 7 then none else
      if env.handle_ok = false then none else
      some { arm_id := arm_id, publish_rate := publish_rate, joint_names := joint_names }

/-- A producer error set with exactly the `joint_motion_generator_velocity_limits_violation`
flag set. -/
def jointVelLimitsOnly : Errors :=
  { Errors.mkFalse with joint_motion_generator_velocity_limits_violation := true }

/-- The 16-scalar column-major identity matrix: ones at offsets 0, 5, 10, 15. -/
def identity16 : Fin 16 → Int := fun i =>
  if i.val = 0 ∨ i.val = 5 ∨ i.val = 10 ∨ i.val = 15 then 1 else 0

/-- The identity matrix with translation entries (offsets 12, 13, 14) set to 1, 2, 3. -/
def translation123 : Fin 16 → Int := fun i =>
  if i.val = 12 then 1 else if i.val = 13 then 2 else if i.val = 14 then 3 else identity16 i

/-- A concrete snapshot with a distinguishable stiffness-frame wrench estimate. -/
def rs0 : RobotState :=
  { cartesian_collision := fun _ => 0
    cartesian_contact := fun _ => 0
    K_F_ext_hat_K := ![1, 2, 3, 4, 5, 6]
    O_F_ext_hat_K := fun _ => 0
    q := fun _ => 0
    dq := fun _ => 0
    tau_J := fun _ => 0
    dtau_J := fun _ => 0
    joint_collision := fun _ => 0
    joint_contact := fun _ => 0
    q_d := fun _ => 0
    tau_ext_hat_filtered := fun _ => 0
    elbow := fun _ => 0
    elbow_d := fun _ => 0
    O_T_EE := fun _ => 0
    F_T_EE := fun _ => 0
    EE_T_K := fun _ => 0
    O_T_EE_d := fun _ => 0
    m_load := 0
    I_load := fun _ => 0
    F_x_Cload := fun _ => 0
    time := 0
    current_errors := Errors.mkFalse
    last_motion_errors := Errors.mkFalse }

/-- A concrete controller state after initialization (arm identifier `panda`). -/
def s0 : ControllerState :=
  { arm_id := "panda"
    joint_names := fun _ => "joint"
    robot_state := rs0
    sequence_number := 0
    pub_franka_states := frankaStatesMessage rs0 0 0
    pub_transforms := transformsMessage "panda" rs0 0
    pub_external_wrench := wrenchMessage "panda" rs0 0
    pub_joint_states := jointStatesMessage (fun _ => "joint") rs0 0 0 }

/-- A firing tick with every channel buffer free. -/
def inpAll : TickInput :=
  { trigger := true
    robot_state := rs0
    franka_states_free := true
    transforms_free := true
    wrench_free := true
    joint_states_free := true }

/-- A firing tick whose aggregate-state buffer is busy. -/
def inpBusyAgg : TickInput :=
  { inpAll with franka_states_free := false }

/-- A tick on which the rate gate does not fire. -/
def inpIdle : TickInput :=
  { inpAll with trigger := false }

/-- A two-tick run in which both ticks fire with all buffers free. -/
def demoRun : List (TickInput × Int) :=
  [(inpAll, 0), (inpAll, 1)]

/-- A three-tick run whose middle tick finds the aggregate-state buffer busy, so
the aggregate channel observes sequence values 0 and 2 and skips 1. -/
def skipDemo : List (TickInput × Int) :=
  [(inpAll, 0), (inpBusyAgg, 1), (inpAll, 2)]

/-- An initialization environment with every input available except the
`publish_rate` parameter. -/
def env0 : InitEnv :=
  { has_state_interface := true
    arm_id_param := some "panda"
    publish_rate_param := none
    joint_names_param := some ["j1", "j2", "j3", "j4", "j5", "j6", "j7"]
    handle_ok := true }

theorem frankaStatesMessage_header_seq (rs : RobotState) (seq : Nat) (t : Int) :
    (frankaStatesMessage rs seq t).header_seq = seq := rfl

theorem jointStatesMessage_header_seq (names : Fin 7 → String) (rs : RobotState)
    (seq : Nat) (t : Int) :
    (jointStatesMessage names rs seq t).header_seq = seq := rfl

theorem update_not_fire (s : ControllerState) (inp : TickInput) (t : Int)
    (h : inp.trigger = false) :
    update s inp t = (s, emptyOutput) := by
  simp [update, h]

theorem update_fire (s : ControllerState) (inp : TickInput) (t : Int)
    (h : inp.trigger = true) :
    (update s inp t).1.arm_id = s.arm_id ∧
    (update s inp t).1.joint_names = s.joint_names ∧
    (update s inp t).1.robot_state = inp.robot_state ∧
    (update s inp t).1.sequence_number = s.sequence_number + 1 ∧
    (update s inp t).2.published_franka_states =
      (if inp.franka_states_free then
        some (frankaStatesMessage inp.robot_state s.sequence_number t) else none) ∧
    (update s inp t).1.pub_franka_states =
      (if inp.franka_states_free then
        frankaStatesMessage inp.robot_state s.sequence_number t else s.pub_franka_states) ∧
    (update s inp t).2.published_transforms =
      (if inp.transforms_free then
        some (transformsMessage s.arm_id inp.robot_state t) else none) ∧
    (update s inp t).1.pub_transforms =
      (if inp.transforms_free then
        transformsMessage s.arm_id inp.robot_state t else s.pub_transforms) ∧
    (update s inp t).2.published_wrench =
      (if inp.wrench_free then
        some (wrenchMessage s.arm_id inp.robot_state t) else none) ∧
    (update s inp t).1.pub_external_wrench =
      (if inp.wrench_free then
        wrenchMessage s.arm_id inp.robot_state t else s.pub_external_wrench) ∧
    (update s inp t).2.published_joint_states =
      (if inp.joint_states_free then
        some (jointStatesMessage s.joint_names inp.robot_state s.sequence_number t)
       else none) ∧
    (update s inp t).1.pub_joint_states =
      (if inp.joint_states_free then
        jointStatesMessage s.joint_names inp.robot_state s.sequence_number t
       else s.pub_joint_states) := by
  obtain ⟨trig, rs, fF, fT, fW, fJ⟩ := inp
  cases trig with
  | false => exact Bool.noConfusion h
  | true =>
    cases fF <;> cases fT <;> cases fW <;> cases fJ <;>
      simp [update, publishFrankaStates, publishTransforms, publishExternalWrench,
        publishJointStates]

theorem update_seq_ge (s : ControllerState) (inp : TickInput) (t : Int) :
    s.sequence_number ≤ (update s inp t).1.sequence_number := by
  by_cases h : inp.trigger = true
  · obtain ⟨-, -, -, h4, -⟩ := update_fire s inp t h
    rw [h4]
    exact Nat.le_succ _
  · rw [update_not_fire s inp t (by simpa using h)]

theorem update_agg_pub (s : ControllerState) (inp : TickInput) (t : Int)
    (m : FrankaStatesMsg)
    (hm : (update s inp t).2.published_franka_states = some m) :
    m.header_seq = s.sequence_number ∧
    (update s inp t).1.sequence_number = s.sequence_number + 1 := by
  by_cases h : inp.trigger = true
  · obtain ⟨-, -, -, h4, h5, -⟩ := update_fire s inp t h
    rw [h5] at hm
    cases hf : inp.franka_states_free with
    | false => rw [hf] at hm; simp at hm
    | true =>
      rw [hf] at hm
      simp only [if_true] at hm
      obtain rfl : frankaStatesMessage inp.robot_state s.sequence_number t = m := by
        simpa using hm
      exact ⟨rfl, h4⟩
  · rw [update_not_fire s inp t (by simpa using h)] at hm
    simp [emptyOutput] at hm

theorem update_joint_pub (s : ControllerState) (inp : TickInput) (t : Int)
    (j : JointStateMsg)
    (hj : (update s inp t).2.published_joint_states = some j) :
    j.header_seq = s.sequence_number := by
  by_cases h : inp.trigger = true
  · obtain ⟨-, -, -, -, -, -, -, -, -, -, h11, -⟩ := update_fire s inp t h
    rw [h11] at hj
    cases hf : inp.joint_states_free with
    | false => rw [hf] at hj; simp at hj
    | true =>
      rw [hf] at hj
      simp only [if_true] at hj
      obtain rfl :
          jointStatesMessage s.joint_names inp.robot_state s.sequence_number t = j := by
        simpa using hj
      rfl
  · rw [update_not_fire s inp t (by simpa using h)] at hj
    simp [emptyOutput] at hj

theorem runTrace_agg_ge (l : List (TickInput × Int)) :
    ∀ (s : ControllerState) (i : Nat) (hi : i < (runTrace s l).length)
      (m : FrankaStatesMsg),
      ((runTrace s l).get ⟨i, hi⟩).2.published_franka_states = some m →
      s.sequence_number ≤ m.header_seq := by
  induction l with
  | nil => intro s i hi m hm; simp [runTrace] at hi
  | cons inp rest ih =>
    intro s i hi m hm
    cases i with
    | zero =>
      have hm0 : (update s inp.1 inp.2).2.published_franka_states = some m := by
        simpa [runTrace] using hm
      exact le_of_eq (update_agg_pub s inp.1 inp.2 m hm0).1.symm
    | succ n =>
      have hi2 : n < (runTrace (update s inp.1 inp.2).1 rest).length := by
        simpa [runTrace] using hi
      have hm2 : ((runTrace (update s inp.1 inp.2).1 rest).get
          ⟨n, hi2⟩).2.published_franka_states = some m := by
        simpa [runTrace] using hm
      exact le_trans (update_seq_ge s inp.1 inp.2) (ih _ n hi2 m hm2)

theorem runTrace_agg_mono (l : List (TickInput × Int)) :
    ∀ (s : ControllerState) (i j : Nat) (hi : i < (runTrace s l).length)
      (hj : j < (runTrace s l).length), i < j →
      ∀ (mi mj : FrankaStatesMsg),
        ((runTrace s l).get ⟨i, hi⟩).2.published_franka_states = some mi →
        ((runTrace s l).get ⟨j, hj⟩).2.published_franka_states = some mj →
        mi.header_seq < mj.header_seq := by
  induction l with
  | nil => intro s i j hi; simp [runTrace] at hi
  | cons inp rest ih =>
    intro s i j hi hj hij mi mj hmi hmj
    obtain ⟨j2, rfl⟩ : ∃ j2, j = j2 + 1 := ⟨j - 1, by omega⟩
    have hj2 : j2 < (runTrace (update s inp.1 inp.2).1 rest).length := by
      simpa [runTrace] using hj
    have hmj2 : ((runTrace (update s inp.1 inp.2).1 rest).get
        ⟨j2, hj2⟩).2.published_franka_states = some mj := by
      simpa [runTrace] using hmj
    cases i with
    | zero =>
      have hmi0 : (update s inp.1 inp.2).2.published_franka_states = some mi := by
        simpa [runTrace] using hmi
      obtain ⟨hseq, hinc⟩ := update_agg_pub s inp.1 inp.2 mi hmi0
      have hge := runTrace_agg_ge rest (update s inp.1 inp.2).1 j2 hj2 mj hmj2
      omega
    | succ n =>
      have hi2 : n < (runTrace (update s inp.1 inp.2).1 rest).length := by
        simpa [runTrace] using hi
      have hmi2 : ((runTrace (update s inp.1 inp.2).1 rest).get
          ⟨n, hi2⟩).2.published_franka_states = some mi := by
        simpa [runTrace] using hmi
      exact ih _ n j2 hi2 hj2 (by omega) mi mj hmi2 hmj2

theorem runTrace_joint_shared (l : List (TickInput × Int)) :
    ∀ (s : ControllerState) (i : Nat) (hi : i < (runTrace s l).length)
      (mi : FrankaStatesMsg) (ji : JointStateMsg),
      ((runTrace s l).get ⟨i, hi⟩).2.published_franka_states = some mi →
      ((runTrace s l).get ⟨i, hi⟩).2.published_joint_states = some ji →
      ji.header_seq = mi.header_seq := by
  induction l with
  | nil => intro s i hi mi ji hmi; simp [runTrace] at hi
  | cons inp rest ih =>
    intro s i hi mi ji hmi hji
    cases i with
    | zero =>
      have hmi0 : (update s inp.1 inp.2).2.published_franka_states = some mi := by
        simpa [runTrace] using hmi
      have hji0 : (update s inp.1 inp.2).2.published_joint_states = some ji := by
        simpa [runTrace] using hji
      rw [update_joint_pub s inp.1 inp.2 ji hji0,
        (update_agg_pub s inp.1 inp.2 mi hmi0).1]
    | succ n =>
      have hi2 : n < (runTrace (update s inp.1 inp.2).1 rest).length := by
        simpa [runTrace] using hi
      have hmi2 : ((runTrace (update s inp.1 inp.2).1 rest).get
          ⟨n, hi2⟩).2.published_franka_states = some mi := by
        simpa [runTrace] using hmi
      have hji2 : ((runTrace (update s inp.1 inp.2).1 rest).get
          ⟨n, hi2⟩).2.published_joint_states = some ji := by
        simpa [runTrace] using hji
      exact ih _ n hi2 mi ji hmi2 hji2

/-- Claim C1 (code bug): `errorsToMessage` does not preserve every flag by name.
For the producer error set with exactly
`joint_motion_generator_velocity_limits_violation` set, the published message
carries that flag as `false` — lines 56-57 of the source assign the message
field from itself instead of from the source field — so the published set is
the all-false default and the one set flag is dropped. -/
theorem errorsToMessage_drops_joint_velocity_limits_flag :
    jointVelLimitsOnly.joint_motion_generator_velocity_limits_violation = true ∧
    (errorsToMessage
        jointVelLimitsOnly).joint_motion_generator_velocity_limits_violation = false ∧
    errorsToMessage jointVelLimitsOnly = Errors.mkFalse :=
  ⟨rfl, rfl, rfl⟩

/-- Claim C2 counterexample: on a firing tick whose aggregate-state buffer is
busy, the aggregate-state publish is skipped and yet the sequence counter still
advances, so the counter is not incremented exactly on successful
aggregate-state publishes. -/
theorem sequence_advances_without_aggregate_publish :
    (update s0 inpBusyAgg 0).2.published_franka_states = none ∧
    (update s0 inpBusyAgg 0).1.sequence_number = s0.sequence_number + 1 :=
  ⟨rfl, rfl⟩

/-- Claim C2 (amended): the sequence counter is incremented once per firing tick
regardless of whether the aggregate-state publish succeeded; it never decreases,
and the aggregate-state and joint-state messages published within one tick carry
the same sequence value. -/
theorem sequence_shared_and_monotone (s : ControllerState) (inp : TickInput)
    (t : Int) (h : inp.trigger = true) :
    (update s inp t).1.sequence_number = s.sequence_number + 1 ∧
    s.sequence_number ≤ (update s inp t).1.sequence_number ∧
    (∀ (m : FrankaStatesMsg) (j : JointStateMsg),
      (update s inp t).2.published_franka_states = some m →
      (update s inp t).2.published_joint_states = some j →
      j.header_seq = m.header_seq) := by
  refine ⟨(update_fire s inp t h).2.2.2.1, update_seq_ge s inp t, ?_⟩
  intro m j hm hj
  rw [update_joint_pub s inp t j hj, (update_agg_pub s inp t m hm).1]

theorem sequence_shared_and_monotone_witness :
    inpAll.trigger = true ∧
    ((update s0 inpAll 0).1.sequence_number = s0.sequence_number + 1 ∧
     s0.sequence_number ≤ (update s0 inpAll 0).1.sequence_number ∧
     (∀ (m : FrankaStatesMsg) (j : JointStateMsg),
       (update s0 inpAll 0).2.published_franka_states = some m →
       (update s0 inpAll 0).2.published_joint_states = some j →
       j.header_seq = m.header_seq)) :=
  ⟨rfl, sequence_shared_and_monotone s0 inpAll 0 rfl⟩

/-- Claim C3: on a firing tick the producer is read once into the stored
snapshot, and every channel payload published in that tick is the fixed
projection of that same captured snapshot (no channel reads the producer
independently). -/
theorem snapshot_single_capture (s : ControllerState) (inp : TickInput) (t : Int)
    (h : inp.trigger = true) :
    (update s inp t).1.robot_state = inp.robot_state ∧
    (update s inp t).2.published_franka_states =
      (if inp.franka_states_free then
        some (frankaStatesMessage inp.robot_state s.sequence_number t) else none) ∧
    (update s inp t).2.published_transforms =
      (if inp.transforms_free then
        some (transformsMessage s.arm_id inp.robot_state t) else none) ∧
    (update s inp t).2.published_wrench =
      (if inp.wrench_free then
        some (wrenchMessage s.arm_id inp.robot_state t) else none) ∧
    (update s inp t).2.published_joint_states =
      (if inp.joint_states_free then
        some (jointStatesMessage s.joint_names inp.robot_state s.sequence_number t)
       else none) := by
  obtain ⟨-, -, h3, -, h5, -, h7, -, h9, -, h11, -⟩ := update_fire s inp t h
  exact ⟨h3, h5, h7, h9, h11⟩

theorem snapshot_single_capture_witness :
    inpAll.trigger = true ∧
    ((update s0 inpAll 0).1.robot_state = inpAll.robot_state ∧
     (update s0 inpAll 0).2.published_franka_states =
       (if inpAll.franka_states_free then
         some (frankaStatesMessage inpAll.robot_state s0.sequence_number 0) else none) ∧
     (update s0 inpAll 0).2.published_transforms =
       (if inpAll.transforms_free then
         some (transformsMessage s0.arm_id inpAll.robot_state 0) else none) ∧
     (update s0 inpAll 0).2.published_wrench =
       (if inpAll.wrench_free then
         some (wrenchMessage s0.arm_id inpAll.robot_state 0) else none) ∧
     (update s0 inpAll 0).2.published_joint_states =
       (if inpAll.joint_states_free then
         some (jointStatesMessage s0.joint_names inpAll.robot_state s0.sequence_number 0)
        else none)) :=
  ⟨rfl, snapshot_single_capture s0 inpAll 0 rfl⟩

/-- Claim C4: on a firing tick each channel publishes exactly when its own
buffer is free; a busy channel is skipped with its buffer left completely
unchanged, and every channel attempts its publish with an outcome depending only
on its own trylock. -/
theorem backpressure_skip_independent (s : ControllerState) (inp : TickInput)
    (t : Int) (h : inp.trigger = true) :
    ((update s inp t).2.published_franka_states.isSome = inp.franka_states_free ∧
      (inp.franka_states_free = false →
        (update s inp t).1.pub_franka_states = s.pub_franka_states)) ∧
    ((update s inp t).2.published_transforms.isSome = inp.transforms_free ∧
      (inp.transforms_free = false →
        (update s inp t).1.pub_transforms = s.pub_transforms)) ∧
    ((update s inp t).2.published_wrench.isSome = inp.wrench_free ∧
      (inp.wrench_free = false →
        (update s inp t).1.pub_external_wrench = s.pub_external_wrench)) ∧
    ((update s inp t).2.published_joint_states.isSome = inp.joint_states_free ∧
      (inp.joint_states_free = false →
        (update s inp t).1.pub_joint_states = s.pub_joint_states)) := by
  obtain ⟨-, -, -, -, h5, h6, h7, h8, h9, h10, h11, h12⟩ := update_fire s inp t h
  refine ⟨⟨?_, fun hf => ?_⟩, ⟨?_, fun hf => ?_⟩, ⟨?_, fun hf => ?_⟩, ⟨?_, fun hf => ?_⟩⟩
  · cases hf : inp.franka_states_free <;> simp [h5, hf]
  · simp [h6, hf]
  · cases hf : inp.transforms_free <;> simp [h7, hf]
  · simp [h8, hf]
  · cases hf : inp.wrench_free <;> simp [h9, hf]
  · simp [h10, hf]
  · cases hf : inp.joint_states_free <;> simp [h11, hf]
  · simp [h12, hf]

theorem backpressure_skip_independent_witness :
    inpBusyAgg.trigger = true ∧
    (((update s0 inpBusyAgg 0).2.published_franka_states.isSome =
        inpBusyAgg.franka_states_free ∧
      (inpBusyAgg.franka_states_free = false →
        (update s0 inpBusyAgg 0).1.pub_franka_states = s0.pub_franka_states)) ∧
     ((update s0 inpBusyAgg 0).2.published_transforms.isSome =
        inpBusyAgg.transforms_free ∧
      (inpBusyAgg.transforms_free = false →
        (update s0 inpBusyAgg 0).1.pub_transforms = s0.pub_transforms)) ∧
     ((update s0 inpBusyAgg 0).2.published_wrench.isSome = inpBusyAgg.wrench_free ∧
      (inpBusyAgg.wrench_free = false →
        (update s0 inpBusyAgg 0).1.pub_external_wrench = s0.pub_external_wrench)) ∧
     ((update s0 inpBusyAgg 0).2.published_joint_states.isSome =
        inpBusyAgg.joint_states_free ∧
      (inpBusyAgg.joint_states_free = false →
        (update s0 inpBusyAgg 0).1.pub_joint_states = s0.pub_joint_states))) :=
  ⟨rfl, backpressure_skip_independent s0 inpBusyAgg 0 rfl⟩

/-- Claim C5: `convertArrayToTf` reads the rotation block from offsets
(0,4,8), (1,5,9), (2,6,10) and the translation from offsets (12,13,14); the
16-scalar identity array yields the identity rotation and zero translation, and
any array whose offsets 12, 13, 14 hold 1, 2, 3 yields translation (1,2,3). -/
theorem convertArrayToTf_layout (m : Fin 16 → Int) :
    ((convertArrayToTf m).1 =
        ![![m 0, m 4, m 8], ![m 1, m 5, m 9], ![m 2, m 6, m 10]] ∧
      (convertArrayToTf m).2 = ![m 12, m 13, m 14]) ∧
    ((convertArrayToTf identity16).1 = fun i j => if i = j then 1 else 0) ∧
    ((convertArrayToTf identity16).2 = fun _ => 0) ∧
    (∀ mm : Fin 16 → Int, mm 12 = 1 → mm 13 = 2 → mm 14 = 3 →
      (convertArrayToTf mm).2 = ![1, 2, 3]) := by
  refine ⟨⟨rfl, rfl⟩, by decide, by decide, ?_⟩
  intro mm h12 h13 h14
  rw [show (convertArrayToTf mm).2 = ![mm 12, mm 13, mm 14] from rfl, h12, h13, h14]

theorem convertArrayToTf_layout_witness :
    translation123 12 = 1 ∧ translation123 13 = 2 ∧ translation123 14 = 3 ∧
    (convertArrayToTf translation123).2 = ![1, 2, 3] :=
  ⟨rfl, rfl, rfl,
   (convertArrayToTf_layout translation123).2.2.2 translation123 rfl rfl rfl⟩

/-- Claim C6: every successful wrench-channel publish is stamped in the
`{arm}_K` frame and carries force equal to components 0-2 and torque equal to
components 3-5 of the captured snapshot's `K_F_ext_hat_K` vector. -/
theorem wrench_projection (s : ControllerState) (inp : TickInput) (t : Int)
    (h : inp.trigger = true) (hw : inp.wrench_free = true) :
    (update s inp t).2.published_wrench =
      some (wrenchMessage s.arm_id inp.robot_state t) ∧
    (wrenchMessage s.arm_id inp.robot_state t).frame_id = s.arm_id ++ "_K" ∧
    (wrenchMessage s.arm_id inp.robot_state t).stamp = t ∧
    (wrenchMessage s.arm_id inp.robot_state t).force_x =
      inp.robot_state.K_F_ext_hat_K 0 ∧
    (wrenchMessage s.arm_id inp.robot_state t).force_y =
      inp.robot_state.K_F_ext_hat_K 1 ∧
    (wrenchMessage s.arm_id inp.robot_state t).force_z =
      inp.robot_state.K_F_ext_hat_K 2 ∧
    (wrenchMessage s.arm_id inp.robot_state t).torque_x =
      inp.robot_state.K_F_ext_hat_K 3 ∧
    (wrenchMessage s.arm_id inp.robot_state t).torque_y =
      inp.robot_state.K_F_ext_hat_K 4 ∧
    (wrenchMessage s.arm_id inp.robot_state t).torque_z =
      inp.robot_state.K_F_ext_hat_K 5 := by
  obtain ⟨-, -, -, -, -, -, -, -, h9, -⟩ := update_fire s inp t h
  exact ⟨by simp [h9, hw], rfl, rfl, rfl, rfl, rfl, rfl, rfl, rfl⟩

theorem wrench_projection_witness :
    inpAll.trigger = true ∧ inpAll.wrench_free = true ∧
    ((update s0 inpAll 0).2.published_wrench =
       some (wrenchMessage s0.arm_id inpAll.robot_state 0) ∧
     (wrenchMessage s0.arm_id inpAll.robot_state 0).frame_id = s0.arm_id ++ "_K" ∧
     (wrenchMessage s0.arm_id inpAll.robot_state 0).stamp = 0 ∧
     (wrenchMessage s0.arm_id inpAll.robot_state 0).force_x =
       inpAll.robot_state.K_F_ext_hat_K 0 ∧
     (wrenchMessage s0.arm_id inpAll.robot_state 0).force_y =
       inpAll.robot_state.K_F_ext_hat_K 1 ∧
     (wrenchMessage s0.arm_id inpAll.robot_state 0).force_z =
       inpAll.robot_state.K_F_ext_hat_K 2 ∧
     (wrenchMessage s0.arm_id inpAll.robot_state 0).torque_x =
       inpAll.robot_state.K_F_ext_hat_K 3 ∧
     (wrenchMessage s0.arm_id inpAll.robot_state 0).torque_y =
       inpAll.robot_state.K_F_ext_hat_K 4 ∧
     (wrenchMessage s0.arm_id inpAll.robot_state 0).torque_z =
       inpAll.robot_state.K_F_ext_hat_K 5) :=
  ⟨rfl, rfl, wrench_projection s0 inpAll 0 rfl rfl⟩

/-- Claim C7: across any run, successive successful aggregate-state publishes
carry strictly increasing sequence values, and a joint-state publish in the same
tick as an aggregate-state publish carries the identical sequence value. -/
theorem trace_sequence_correlation (l : List (TickInput × Int)) (s : ControllerState) :
    (∀ (i j : Nat) (hi : i < (runTrace s l).length)
        (hj : j < (runTrace s l).length), i < j →
      ∀ (mi mj : FrankaStatesMsg),
        ((runTrace s l).get ⟨i, hi⟩).2.published_franka_states = some mi →
        ((runTrace s l).get ⟨j, hj⟩).2.published_franka_states = some mj →
        mi.header_seq < mj.header_seq) ∧
    (∀ (i : Nat) (hi : i < (runTrace s l).length)
        (mi : FrankaStatesMsg) (ji : JointStateMsg),
      ((runTrace s l).get ⟨i, hi⟩).2.published_franka_states = some mi →
      ((runTrace s l).get ⟨i, hi⟩).2.published_joint_states = some ji →
      ji.header_seq = mi.header_seq) :=
  ⟨fun i j hi hj hij mi mj hmi hmj =>
      runTrace_agg_mono l s i j hi hj hij mi mj hmi hmj,
   fun i hi mi ji hmi hji => runTrace_joint_shared l s i hi mi ji hmi hji⟩

theorem trace_sequence_correlation_witness :
    (frankaStatesMessage rs0 0 0).header_seq <
      (frankaStatesMessage rs0 1 1).header_seq ∧
    (jointStatesMessage (fun _ => "joint") rs0 0 0).header_seq =
      (frankaStatesMessage rs0 0 0).header_seq :=
  ⟨(trace_sequence_correlation demoRun s0).1 0 1 (by decide) (by decide) (by decide)
      (frankaStatesMessage rs0 0 0) (frankaStatesMessage rs0 1 1) rfl rfl,
   (trace_sequence_correlation demoRun s0).2 0 (by decide)
      (frankaStatesMessage rs0 0 0) (jointStatesMessage (fun _ => "joint") rs0 0 0)
      rfl rfl⟩

/-- Claim C9: on a tick where the rate gate does not fire, `update` captures no
snapshot, attempts no publish, and returns the state — snapshot, sequence
counter and all four channel buffers — unchanged. -/
theorem idle_tick_no_effect (s : ControllerState) (inp : TickInput) (t : Int)
    (h : inp.trigger = false) :
    update s inp t = (s, emptyOutput) :=
  update_not_fire s inp t h

theorem idle_tick_no_effect_witness :
    inpIdle.trigger = false ∧ update s0 inpIdle 0 = (s0, emptyOutput) :=
  ⟨rfl, idle_tick_no_effect s0 inpIdle 0 rfl⟩

/-- Claim C10: the sequence counter is incremented exactly once per firing tick,
after the channel publish attempts (published aggregate messages carry the
pre-increment value), regardless of any channel's trylock outcome; hence a
single channel can observe skipped sequence numbers, as in the `skipDemo` run
where the aggregate channel sees values 0 and 2 but never 1. -/
theorem sequence_counts_firing_ticks (s : ControllerState) (inp : TickInput)
    (t : Int) (h : inp.trigger = true) :
    (update s inp t).1.sequence_number = s.sequence_number + 1 ∧
    (∀ m : FrankaStatesMsg, (update s inp t).2.published_franka_states = some m →
      m.header_seq = s.sequence_number) ∧
    (runTrace s0 skipDemo).map
        (fun r => r.2.published_franka_states.map FrankaStatesMsg.header_seq) =
      [some 0, none, some 2] :=
  ⟨(update_fire s inp t h).2.2.2.1,
   fun m hm => (update_agg_pub s inp t m hm).1, rfl⟩

theorem sequence_counts_firing_ticks_witness :
    inpAll.trigger = true ∧
    ((update s0 inpAll 0).1.sequence_number = s0.sequence_number + 1 ∧
     (∀ m : FrankaStatesMsg, (update s0 inpAll 0).2.published_franka_states = some m →
       m.header_seq = s0.sequence_number) ∧
     (runTrace s0 skipDemo).map
         (fun r => r.2.published_franka_states.map FrankaStatesMsg.header_seq) =
       [some 0, none, some 2]) :=
  ⟨rfl, sequence_counts_firing_ticks s0 inpAll 0 rfl⟩

/-- Claim C8: `init` fails exactly when the state interface is unavailable, the
arm-identifier parameter is missing, the joint-name list is missing or not of
length 7, or obtaining the state handle from the hardware layer fails; a missing
publish-rate parameter is not an error and the default rate 30.0 is used
instead. A `none` result is the only failure observable: no configuration is
produced at all. -/
theorem init_failure_conditions (env : InitEnv) :
    (init env = none ↔
      (env.has_state_interface = false ∨ env.arm_id_param = none ∨
        env.joint_names_param = none ∨
        (∃ l, env.joint_names_param = some l ∧ l.length ≠ 7) ∨
        env.handle_ok = false)) ∧
    (env.publish_rate_param = none →
      ∀ c : InitConfig, init env = some c → c.publish_rate = 30) := by
  obtain ⟨hsi, aid, pr, jn, hok⟩ := env
  constructor
  · cases hsi <;> cases aid <;> cases jn <;> cases hok <;>
      simp [init]
  · intro hpr c hc
    subst hpr
    cases hsi <;> cases aid <;> cases jn <;> cases hok <;>
      simp [init] at hc
    rw [← hc.2]

theorem init_failure_conditions_witness :
    env0.publish_rate_param = none ∧
    InitConfig.publish_rate
      { arm_id := "panda", publish_rate := 30,
        joint_names := ["j1", "j2", "j3", "j4", "j5", "j6", "j7"] } = 30 :=
  ⟨rfl, (init_failure_conditions env0).2 rfl
      { arm_id := "panda", publish_rate := 30,
        joint_names := ["j1", "j2", "j3", "j4", "j5", "j6", "j7"] } rfl⟩
